import Mathlib

/-!
Verification of the annotation/export core of a small PDF editor.

The development shallowly embeds the code of:
* `src/app/components/PDFExporter.tsx` (coordinate conversion, per-element
  draw-command generation, color parsing),
* `src/app/components/CanvasDrawing.tsx` (element creation, the
  canvas-to-viewport re-basing on entering text-edit mode),
* `src/app/components/RichTextEditor.tsx` (confirm/cancel of a text edit),
* the page component in `src/unnamed/part_000` (history engine:
  checkpoint / undo / redo; text confirm / cancel handlers).

JavaScript numbers are modelled as real numbers (`ℝ`); `NaN` results of
`parseInt` are modelled as `Option` (`none` = NaN).  Strings are modelled
as `List Char`.
-/

namespace PdfEditor

/-- Tool kinds, from `ToolType` in `src/app/components/Toolbar.tsx`. -/
inductive ToolType where
  | select
  | text
  | draw
  | highlight
  | eraser
  | rectangle
  | circle
  | arrow
deriving DecidableEq, Repr

/-- A 2-D point `{x, y}` (CanvasDrawing.tsx, interface `Point`). -/
structure Point where
  x : ℝ
  y : ℝ

/-- Text formatting options (CanvasDrawing.tsx, interface `TextFormat`). -/
structure TextFormat where
  fontFamily : List Char
  fontSize : ℝ
  isBold : Bool
  isItalic : Bool
  isUnderline : Bool
  color : List Char
  backgroundColor : Option (List Char) := none

/-- An annotation element (CanvasDrawing.tsx, interface `DrawingElement`).
The `id` is the creation timestamp `Date.now()` (its decimal string form in
the source; `Nat.repr` is injective so we keep the number).  Optional JS
fields are `Option`; the optional boolean `isEditing` is modelled as a
`Bool` because every use in the source is a truthiness test, for which
`undefined` and `false` coincide. -/
structure DrawingElement where
  id : Nat
  type : ToolType
  points : List Point
  color : List Char
  strokeWidth : ℝ
  text : Option (List Char) := none
  fontSize : Option ℝ := none
  width : Option ℝ := none
  height : Option ℝ := none
  isEditing : Bool := false
  textFormat : Option TextFormat := none

/-- A parsed RGB color.  Each channel is `Option ℚ`: `none` models a `NaN`
produced by `parseInt` on a non-numeric slice. -/
structure RGBv where
  r : Option ℚ
  g : Option ℚ
  b : Option ℚ
deriving DecidableEq, Repr

/-- The hexadecimal digit characters with their values (the digits
accepted by JavaScript `parseInt(_, 16)`). -/
def hexDigits : List (Char × Nat) :=
  [ ('0', 0), ('1', 1), ('2', 2), ('3', 3), ('4', 4), ('5', 5), ('6', 6),
    ('7', 7), ('8', 8), ('9', 9), ('a', 10), ('b', 11), ('c', 12),
    ('d', 13), ('e', 14), ('f', 15), ('A', 10), ('B', 11), ('C', 12),
    ('D', 13), ('E', 14), ('F', 15) ]

/-- Value of one hexadecimal digit character, `none` when the character is
not a hex digit. -/
def hexDigitVal (c : Char) : Option Nat :=
  (hexDigits.find? (fun p => p.1 = c)).map (fun p => p.2)

/-- Whether a character is a hexadecimal digit. -/
def isHexDigitChar (c : Char) : Bool := (hexDigitVal c).isSome

/-- Numeric value of a list of hex digits, most significant first. -/
def hexDigitsVal (l : List Char) : Nat :=
  l.foldl (fun a c => 16 * a + (hexDigitVal c).getD 0) 0

/-- Strip an optional leading `0x` / `0X`, as JavaScript `parseInt` with
radix 16 does after the optional sign. -/
def stripHex0x (s : List Char) : List Char :=
  match s with
  | '0' :: 'x' :: r => r
  | '0' :: 'X' :: r => r
  | _ => s

/-- Model of JavaScript `parseInt(s, 16)`: skip leading whitespace, read an
optional sign, strip an optional `0x`/`0X`, then take the longest prefix of
hex digits; `none` models the `NaN` returned when that prefix is empty. -/
def jsParseIntHex (s : List Char) : Option ℚ :=
  let s1 := s.dropWhile Char.isWhitespace
  let s2 := if s1.head? = some '-' ∨ s1.head? = some '+' then s1.drop 1 else s1
  let s3 := stripHex0x s2
  let digits := s3.takeWhile isHexDigitChar
  if digits = [] then none
  else if s1.head? = some '-' then some (-(hexDigitsVal digits : ℚ))
  else some ((hexDigitsVal digits : ℚ))

/-- Model of `parseColor` from `src/app/components/PDFExporter.tsx` (lines 227-239):
a string starting with `#` is decoded by parsing the three two-character
slices after the `#` as hex integers and dividing by 255; any other string
gets the fixed fallback `{r: 1, g: 0, b: 0}`. -/
def parseColor (colorStr : List Char) : RGBv :=
  if colorStr.head? = some '#' then
    let hex := colorStr.drop 1
    { r := (jsParseIntHex (hex.take 2)).map (· / 255),
      g := (jsParseIntHex ((hex.drop 2).take 2)).map (· / 255),
      b := (jsParseIntHex ((hex.drop 4).take 2)).map (· / 255) }
  else
    { r := some 1, g := some 0, b := some 0 }

/-- JavaScript `a || b` on a number `a` (with `b` the default): `a` is
replaced by `b` when it is falsy, i.e. zero. -/
noncomputable def jsNumOr (a b : ℝ) : ℝ :=
  if a = 0 then b else a

open Classical in
/-- JavaScript `a || b` where `a` is an optional number field: `undefined`
and `0` are both falsy. -/
noncomputable def jsOptNumOr (a : Option ℝ) (b : ℝ) : ℝ :=
  match a with
  | none => b
  | some v => jsNumOr v b

/-- One native draw command issued to the pdf-lib page
(`page.drawText` / `page.drawRectangle` / `page.drawCircle`). -/
inductive DrawCmd where
  | drawText (content : List Char) (x y size : ℝ) (color : RGBv)
  | drawRectangle (x y width height : ℝ)
      (borderColor : Option RGBv) (borderWidth : Option ℝ)
      (color : Option RGBv) (opacity : Option ℝ) (rotateDeg : Option ℝ)
  | drawCircle (x y size : ℝ) (borderColor : RGBv) (borderWidth : ℝ)

/-- Model of `convertCoords` from PDFExporter.tsx (lines 51-54): canvas pixels to
page-native coordinates, dividing by the scale and flipping the y axis. -/
noncomputable def convertCoords (scale pageHeight : ℝ) (p : Point) : Point :=
  { x := p.x / scale, y := pageHeight - p.y / scale }

/-- Model of `Math.atan2(y, x)`. -/
noncomputable def atan2 (y x : ℝ) : ℝ :=
  if 0 < x then Real.arctan (y / x)
  else if x < 0 then
    (if 0 ≤ y then Real.arctan (y / x) + Real.pi
     else Real.arctan (y / x) - Real.pi)
  else
    (if 0 < y then Real.pi / 2 else if y < 0 then -(Real.pi / 2) else 0)

open Classical in
/-- Model of `drawElementOnPDF` from PDFExporter.tsx (lines 41-225): the draw
commands one element contributes to the page, given the export scale and
the page height.  Each `case` of the source `switch` is one branch on
`element.type`; `points[0]` / `points[points.length - 1]` appear as
`headD` / `getLastD` behind the same length guards as the source. -/
noncomputable def drawElementOnPDF (element : DrawingElement)
    (scale pageHeight : ℝ) : List DrawCmd :=
  let color := parseColor element.color
  match element.type with
  | .text =>
    match element.text with
    | some t =>
      if !t.isEmpty && !element.points.isEmpty then
        let coords := convertCoords scale pageHeight
          (element.points.headD ⟨0, 0⟩)
        [ .drawText t coords.x coords.y
            (jsOptNumOr element.fontSize 16 / scale) color ]
      else []
    | none => []
  | .rectangle =>
    if 2 ≤ element.points.length then
      let start := convertCoords scale pageHeight (element.points.headD ⟨0, 0⟩)
      let stop := convertCoords scale pageHeight
        (element.points.getLastD ⟨0, 0⟩)
      let w := |stop.x - start.x|
      let h := |stop.y - start.y|
      [ .drawRectangle (min start.x stop.x) (min start.y stop.y) w h
          (some color) (some (element.strokeWidth / scale)) none none none ]
    else []
  | .circle =>
    if 2 ≤ element.points.length then
      let start := convertCoords scale pageHeight (element.points.headD ⟨0, 0⟩)
      let stop := convertCoords scale pageHeight
        (element.points.getLastD ⟨0, 0⟩)
      let radius :=
        Real.sqrt ((stop.x - start.x) ^ 2 + (stop.y - start.y) ^ 2) / scale
      [ .drawCircle start.x start.y (radius * 2) color
          (element.strokeWidth / scale) ]
    else []
  | .highlight =>
    if 2 ≤ element.points.length then
      let start := convertCoords scale pageHeight (element.points.headD ⟨0, 0⟩)
      let stop := convertCoords scale pageHeight
        (element.points.getLastD ⟨0, 0⟩)
      let w := |stop.x - start.x|
      let h := jsNumOr |stop.y - start.y| (20 / scale)
      [ .drawRectangle (min start.x stop.x) (min start.y stop.y) w h
          none none (some color) (some (3 / 10)) none ]
    else []
  | .draw =>
    if 1 < element.points.length then
      (element.points.zip element.points.tail).flatMap fun pq =>
        let start := convertCoords scale pageHeight pq.1
        let stop := convertCoords scale pageHeight pq.2
        let dx := stop.x - start.x
        let dy := stop.y - start.y
        let len := Real.sqrt (dx * dx + dy * dy)
        if 0 < len then
          [ .drawRectangle start.x
              (start.y - (element.strokeWidth / scale) / 2) len
              (element.strokeWidth / scale) none none (some color) none
              (some (atan2 dy dx * 180 / Real.pi)) ]
        else []
    else []
  | .arrow =>
    if 2 ≤ element.points.length then
      let start := convertCoords scale pageHeight (element.points.headD ⟨0, 0⟩)
      let stop := convertCoords scale pageHeight
        (element.points.getLastD ⟨0, 0⟩)
      let dx := stop.x - start.x
      let dy := stop.y - start.y
      let len := Real.sqrt (dx * dx + dy * dy)
      if 0 < len then
        let angle := atan2 dy dx
        let headLength := 15 / scale
        let leftX := stop.x - headLength * Real.cos (angle - Real.pi / 6)
        let leftY := stop.y - headLength * Real.sin (angle - Real.pi / 6)
        let rightX := stop.x - headLength * Real.cos (angle + Real.pi / 6)
        let rightY := stop.y - headLength * Real.sin (angle + Real.pi / 6)
        let leftLen :=
          Real.sqrt ((stop.x - leftX) ^ 2 + (stop.y - leftY) ^ 2)
        let rightLen :=
          Real.sqrt ((stop.x - rightX) ^ 2 + (stop.y - rightY) ^ 2)
        [ .drawRectangle start.x
            (start.y - (element.strokeWidth / scale) / 2) len
            (element.strokeWidth / scale) none none (some color) none
            (some (atan2 dy dx * 180 / Real.pi)),
          .drawRectangle stop.x stop.y leftLen
            (element.strokeWidth / scale) none none (some color) none
            (some (atan2 (leftY - stop.y) (leftX - stop.x) * 180 / Real.pi)),
          .drawRectangle stop.x stop.y rightLen
            (element.strokeWidth / scale) none none (some color) none
            (some (atan2 (rightY - stop.y) (rightX - stop.x) * 180 / Real.pi)) ]
      else []
    else []
  | .select => []
  | .eraser => []

/-- The command stream of `mergePDFWithAnnotations` (PDFExporter.tsx lines
31-34): the loop `for (const element of elements)` draws every element of
the list, in order, with no filtering.  Loading the document, embedding the
fonts and serializing the bytes are external pdf-lib calls; the annotation
content of the export is exactly this list of draw commands. -/
noncomputable def mergeAnnotationCommands (elements : List DrawingElement)
    (scale pageHeight : ℝ) : List DrawCmd :=
  elements.flatMap (fun e => drawElementOnPDF e scale pageHeight)

/-- The viewport-space anchor computed when an existing committed text
element enters edit mode (CanvasDrawing.tsx `handleMouseDown`, lines
311-323, repeated for the `text` tool at lines 352-365): the canvas point
is shifted by the canvas bounding rect's top-left `O` and the y coordinate
converted from baseline to top anchoring by subtracting the font size. -/
noncomputable def toViewportForEdit (p O : Point) (fontSize : ℝ) : Point :=
  { x := p.x + O.x, y := p.y + O.y - fontSize }

/-- The canvas-space anchor computed when a text edit is confirmed
(`handleTextConfirm` in `src/unnamed/part_000`, lines 134-151): the
viewport point is shifted back by the canvas origin `O`, `+ 2` on each
axis (the source comments call this accounting for the `-2` render offset
of the editor), and the font size is added back to the y coordinate. -/
noncomputable def confirmRebase (p O : Point) (fontSize : ℝ) : Point :=
  { x := p.x - O.x + 2, y := p.y - O.y + 2 + fontSize }

/-- The font size used by `handleTextConfirm`:
`textFormat?.fontSize || el.fontSize || 16`. -/
noncomputable def confirmFontSize (textFormat : Option TextFormat)
    (el : DrawingElement) : ℝ :=
  jsOptNumOr (textFormat.map (·.fontSize)) (jsOptNumOr el.fontSize 16)

/-- The element-list update of `handleTextConfirm` (part_000, lines
126-155): the element with the given id gets the confirmed text and
format, leaves edit mode, and — when it was being edited — has all its
points re-based from viewport space back to canvas space with origin `O`
and the confirmed font size. -/
noncomputable def handleTextConfirmElements (elements : List DrawingElement)
    (id : Nat) (text : List Char) (textFormat : Option TextFormat)
    (O : Point) : List DrawingElement :=
  elements.map fun el =>
    if el.id = id then
      { el with
        text := some text
        textFormat := textFormat
        isEditing := false
        points :=
          if el.isEditing then
            el.points.map (fun p => confirmRebase p O (confirmFontSize textFormat el))
          else el.points }
    else el

/-- Model of `handleTextCancel` (part_000, lines 191-193): remove the element with
the given id from the set. -/
def handleTextCancel (elements : List DrawingElement) (id : Nat) :
    List DrawingElement :=
  elements.filter (fun el => el.id ≠ id)

/-- JavaScript `String.prototype.trim`: drop whitespace from both ends. -/
def jsTrim (l : List Char) : List Char :=
  ((l.dropWhile Char.isWhitespace).reverse.dropWhile Char.isWhitespace).reverse

/-- Model of `handleConfirm` of the in-place text editor (RichTextEditor.tsx, lines
104-110) combined with the page component's callbacks: a non-empty trimmed
text is confirmed (`onConfirm(text.trim(), format)` →
`handleTextConfirm`), an empty trimmed text cancels (`onCancel()` →
`handleTextCancel`, which deletes the element). -/
noncomputable def editorConfirm (elements : List DrawingElement) (id : Nat)
    (text : List Char) (format : TextFormat) (O : Point) :
    List DrawingElement :=
  if jsTrim text ≠ [] then
    handleTextConfirmElements elements id (jsTrim text) (some format) O
  else
    handleTextCancel elements id

/-- The freshly created shape element of `handleMouseDown`
(CanvasDrawing.tsx, lines 400-406): `currentElementRef.current`, committed
unchanged (up to the points accumulated while dragging) by
`handleMouseUp`.  `t` is the `Date.now()` creation timestamp used as id. -/
def mkShapeElement (t : Nat) (tool : ToolType) (points : List Point)
    (strokeColor : List Char) (strokeWidth : ℝ) : DrawingElement :=
  { id := t, type := tool, points := points, color := strokeColor,
    strokeWidth := strokeWidth }

/-- The freshly created text element of `handleMouseDown`
(CanvasDrawing.tsx, lines 377-398). -/
def mkTextElement (t : Nat) (viewportPoint : Point)
    (strokeColor : List Char) (strokeWidth fontSize : ℝ) : DrawingElement :=
  { id := t, type := .text, points := [viewportPoint], color := strokeColor,
    strokeWidth := strokeWidth, text := some [], fontSize := some fontSize,
    isEditing := true,
    textFormat := some
      { fontFamily := [ 'A', 'r', 'i', 'a', 'l' ], fontSize := fontSize,
        isBold := false, isItalic := false, isUnderline := false,
        color := strokeColor, backgroundColor := none } }

/-- One element-creating interaction: a shape commit (pointer-down then
pointer-up with the non-text, non-select, non-eraser tools) or a text-tool
pointer-down; each carries its `Date.now()` timestamp `t`. -/
inductive CreationOp where
  | shape (t : Nat) (tool : ToolType) (points : List Point)
      (strokeColor : List Char) (strokeWidth : ℝ)
  | text (t : Nat) (viewportPoint : Point) (strokeColor : List Char)
      (strokeWidth fontSize : ℝ)

/-- The creation timestamp of an interaction. -/
def CreationOp.time : CreationOp → Nat
  | .shape t _ _ _ _ => t
  | .text t _ _ _ _ => t

/-- Model of `handleElementAdd` restricted to the element list (part_000, lines
102-114): the new element is appended to the set. -/
def applyCreation (elements : List DrawingElement) (op : CreationOp) :
    List DrawingElement :=
  match op with
  | .shape t tool pts c w => elements ++ [mkShapeElement t tool pts c w]
  | .text t p c w f => elements ++ [mkTextElement t p c w f]

/-- Run a sequence of element creations against a starting set. -/
def runCreations (elements : List DrawingElement) (ops : List CreationOp) :
    List DrawingElement :=
  ops.foldl applyCreation elements

/-!  History engine (part_000): `elements`, `history`, `historyIndex`. -/

/-- The page component's state relevant to the history engine:
`elements`, `history` (a list of full-set snapshots) and `historyIndex`
(starts at `-1`, hence an integer). -/
structure HistoryState where
  elements : List DrawingElement
  history : List (List DrawingElement)
  historyIndex : Int

/-- The initial state: `elements = []`, `history = []`,
`historyIndex = -1`. -/
def initState : HistoryState :=
  { elements := [], history := [], historyIndex := -1 }

/-- A checkpoint of a new current set (the history update shared by
`saveToHistory` and `handleElementAdd` / `handleTextConfirm` in part_000):
`history.slice(0, historyIndex + 1)` truncates everything beyond the
cursor, the new set is pushed, and the cursor moves to the new last
index.  `slice`'s end bound is `historyIndex + 1 ≥ 0` whenever the index
is at least `-1`, matching `Int.toNat`. -/
def checkpointWith (s : HistoryState) (newElements : List DrawingElement) :
    HistoryState :=
  let newHistory := s.history.take (s.historyIndex + 1).toNat ++ [newElements]
  { elements := newElements, history := newHistory,
    historyIndex := (newHistory.length : Int) - 1 }

/-- Model of `handleUndo` (part_000, lines 47-53): when the cursor is positive,
decrement it and replace the element set with the snapshot at the new
cursor; otherwise do nothing. -/
def handleUndo (s : HistoryState) : HistoryState :=
  if 0 < s.historyIndex then
    let newIndex := s.historyIndex - 1
    { elements := s.history.getD newIndex.toNat [], history := s.history,
      historyIndex := newIndex }
  else s

/-- Model of `handleRedo` (part_000, lines 55-61): when the cursor is below the
last index, increment it and replace the element set with the snapshot at
the new cursor; otherwise do nothing. -/
def handleRedo (s : HistoryState) : HistoryState :=
  if s.historyIndex < (s.history.length : Int) - 1 then
    let newIndex := s.historyIndex + 1
    { elements := s.history.getD newIndex.toNat [], history := s.history,
      historyIndex := newIndex }
  else s

/-!  Validation predicates of the spec's Annotation Model (§4.1).  These
are not code of the repository: the spec assigns them to the Annotation
Model contract, and no function named `isComplete` / `isExportable`
exists under `src/`. -/

/-- Modelled from the spec: `isComplete(element)` — "points non-empty,
and for shape kinds, at least 2 points" (spec §4.1; absent from src/). -/
def isComplete (e : DrawingElement) : Bool :=
  !e.points.isEmpty &&
    (match e.type with
     | .rectangle | .circle | .arrow | .highlight | .draw =>
        2 ≤ e.points.length
     | _ => true)

/-- Modelled from the spec: `isExportable(element)` — "`isComplete` and
not `isEditing` and, for text, non-empty `text`" (spec §4.1; absent from
src/). -/
def isExportable (e : DrawingElement) : Bool :=
  isComplete e && !e.isEditing &&
    (match e.type with
     | .text => match e.text with | some t => !t.isEmpty | none => false
     | _ => true)

/-!  Claims. -/

/-- A text element still in edit mode (`isEditing = true`) with non-empty
text, as it sits in the set while the in-place editor is open (the editor
keeps `el.text` synced on every keystroke via `handleTextChange`). -/
def editingTextElement : DrawingElement :=
  { id := 1, type := .text, points := [⟨10, 10⟩],
    color := [ '#', 'f', 'f', '0', '0', '0', '0' ], strokeWidth := 2,
    text := some [ 'H', 'i' ], fontSize := some 16, isEditing := true }

/-- Claim C1: the claim states that no element with `isEditing = true`
(and in general no element failing `isExportable`) contributes a draw
command to the export.  The code violates this: `mergePDFWithAnnotations`
loops over the element list with no filtering, and the `text` case of
`drawElementOnPDF` guards only on non-empty text and non-empty points, so
an in-edit text element (which fails `isExportable`) contributes a
`drawText` command. -/
theorem claim_C1_editing_element_drawn :
    editingTextElement.isEditing = true ∧
    isExportable editingTextElement = false ∧
    (mergeAnnotationCommands [editingTextElement] 1 100).length = 1 :=
  ⟨rfl, rfl, rfl⟩

/-- Claim C2 counterexample: re-basing the canvas anchor `(7, 9)` to
viewport space (canvas origin `(100, 50)`, font size 16) and back on
confirm yields `(9, 11)`, not `(7, 9)`: the claimed exact round trip
fails on the code. -/
theorem claim_C2_roundtrip_counterexample :
    confirmRebase (toViewportForEdit ⟨7, 9⟩ ⟨100, 50⟩ 16) ⟨100, 50⟩ 16 ≠
      (⟨7, 9⟩ : Point) := by
  simp only [confirmRebase, toViewportForEdit, ne_eq, Point.mk.injEq]
  intro h
  have := h.1
  norm_num at this

/-- Claim C2 amended: for every canvas anchor `A`, canvas origin `O` and
font size `f`, re-basing to viewport space on edit entry and back to
canvas space on confirm (with the same font size) reproduces `A`
translated by `(+2, +2)` — the confirm re-basing adds 2 px per axis to
compensate the editor's `-2` px render offset — not `A` exactly. -/
theorem claim_C2_roundtrip_offset (A O : Point) (f : ℝ) :
    confirmRebase (toViewportForEdit A O f) O f =
      ⟨A.x + 2, A.y + 2⟩ := by
  simp only [confirmRebase, toViewportForEdit, Point.mk.injEq]
  constructor <;> ring

/-- Claim C4: after `checkpoint(A); checkpoint(B); undo(); checkpoint(C)`
from the initial state, a `redo()` is a no-op (the snapshot `B` was
truncated away by the third checkpoint) and the current element set is
`C`. -/
theorem claim_C4_redo_branch_discard (A B C : List DrawingElement) :
    handleRedo
        (checkpointWith (handleUndo (checkpointWith (checkpointWith initState A) B)) C) =
      checkpointWith (handleUndo (checkpointWith (checkpointWith initState A) B)) C ∧
    (checkpointWith (handleUndo (checkpointWith (checkpointWith initState A) B)) C).elements
      = C := by
  norm_num [checkpointWith, handleUndo, handleRedo, initState, List.getD]

/-- Claim C10: `handleUndo` and `handleRedo` never modify the history
snapshot list; they only move the cursor and replace the current element
set, either leaving it unchanged (boundary no-op) or replacing it with
the snapshot at the new cursor. -/
theorem claim_C10_undo_redo_frame (s : HistoryState) :
    (handleUndo s).history = s.history ∧
    (handleRedo s).history = s.history ∧
    ((handleUndo s).elements = s.elements ∨
      (handleUndo s).elements = s.history.getD (s.historyIndex - 1).toNat []) ∧
    ((handleRedo s).elements = s.elements ∨
      (handleRedo s).elements = s.history.getD (s.historyIndex + 1).toNat []) := by
  refine ⟨?_, ?_, ?_, ?_⟩ <;> simp only [handleUndo, handleRedo] <;>
    split <;> simp

/-- Claim C3: export coordinate conversion.  For every point and scale
`s > 0` the conversion yields `(x / s, h - y / s)`; a text element's font
size and a rectangle's stroke width are divided by `s`; the two corner
points of a rectangle are normalized to `(min, min, |dx|, |dy|)`; and the
concrete scenario: a rectangle with corners `(10, 10)` and `(50, 40)` at
scale 1 on a page of height 200 exports as a draw command with `x = 10`,
`y = 160`, `width = 40`, `height = 30`. -/
theorem claim_C3_export_conversion (s h x y x1 y1 x2 y2 sw fs : ℝ)
    (c : List Char) (hs : 0 < s) (hfs : fs ≠ 0) :
    convertCoords s h ⟨x, y⟩ = ⟨x / s, h - y / s⟩ ∧
    drawElementOnPDF
        { id := 1, type := .text, points := [⟨x, y⟩], color := c,
          strokeWidth := sw, text := some [ 'H', 'i' ], fontSize := some fs }
        s h =
      [ .drawText [ 'H', 'i' ] (x / s) (h - y / s) (fs / s) (parseColor c) ] ∧
    drawElementOnPDF
        { id := 2, type := .rectangle, points := [⟨x1, y1⟩, ⟨x2, y2⟩],
          color := c, strokeWidth := sw } s h =
      [ .drawRectangle (min (x1 / s) (x2 / s))
          (min (h - y1 / s) (h - y2 / s)) |x2 / s - x1 / s|
          |(h - y2 / s) - (h - y1 / s)| (some (parseColor c))
          (some (sw / s)) none none none ] ∧
    drawElementOnPDF
        { id := 3, type := .rectangle, points := [⟨10, 10⟩, ⟨50, 40⟩],
          color := c, strokeWidth := sw } 1 200 =
      [ .drawRectangle 10 160 40 30 (some (parseColor c)) (some (sw / 1))
          none none none ] := by
  refine ⟨rfl, ?_, ?_, ?_⟩
  · simp [drawElementOnPDF, convertCoords, jsOptNumOr, jsNumOr, hfs]
  · simp [drawElementOnPDF, convertCoords]
  · simp only [drawElementOnPDF, convertCoords, List.length_cons,
      List.length_nil, List.headD, List.getLastD]
    norm_num [min_def, abs_of_nonneg, abs_of_nonpos]

/-- Witness for claim C3 at the concrete input `s = 2`, `h = 300`,
anchor `(20, 30)`, font size 16. -/
theorem claim_C3_export_conversion_witness :
    (0 : ℝ) < 2 ∧ (16 : ℝ) ≠ 0 ∧
    convertCoords 2 300 ⟨20, 30⟩ = ⟨20 / 2, 300 - 30 / 2⟩ :=
  ⟨by norm_num, by norm_num,
    (claim_C3_export_conversion 2 300 20 30 0 0 0 0 2 16
      [ '#', 'f', 'f', '0', '0', '0', '0' ] (by norm_num) (by norm_num)).1⟩

/-- The circle element of claim C5's failing input: drag from `(0, 0)` to
`(3, 4)` (canvas distance 5), stroke width 2. -/
def circleElementC5 : DrawingElement :=
  { id := 4, type := .circle, points := [⟨0, 0⟩, ⟨3, 4⟩],
    color := [ '#', 'f', 'f', '0', '0', '0', '0' ], strokeWidth := 2 }

/-- Claim C5: the claim states the exported circle radius is the canvas
distance between the first and last point divided by the scale, scaled
exactly once.  The code scales twice: it measures the distance between the
two already-converted (scale-divided) points and divides by the scale
again.  At scale 2 with points `(0, 0)` and `(3, 4)` the drawn diameter is
`5/2` (radius `5/4 = 5 / 2²`), while the claimed radius `5 / 2` would give
diameter 5. -/
theorem claim_C5_circle_radius_double_scaled :
    drawElementOnPDF circleElementC5 2 100 =
      [ .drawCircle 0 100 (5 / 2) (parseColor circleElementC5.color) 1 ] ∧
    Real.sqrt ((3 - 0) ^ 2 + (4 - 0) ^ 2) / 2 = 5 / 2 ∧
    (5 / 2 : ℝ) ≠ 2 * (5 / 2) := by
  have h2 : Real.sqrt ((3 - 0) ^ 2 + (4 - 0) ^ 2) = 5 := by
    rw [show ((3 - 0 : ℝ) ^ 2 + (4 - 0) ^ 2) = 5 ^ 2 by norm_num]
    exact Real.sqrt_sq (by norm_num)
  have h3 : Real.sqrt 25 = 5 := by
    rw [show (25 : ℝ) = 5 ^ 2 by norm_num]; exact Real.sqrt_sq (by norm_num)
  have h4 : Real.sqrt 4 = 2 := by
    rw [show (4 : ℝ) = 2 ^ 2 by norm_num]; exact Real.sqrt_sq (by norm_num)
  refine ⟨?_, by rw [h2], by norm_num⟩
  simp only [drawElementOnPDF, circleElementC5, convertCoords, List.headD,
    List.getLastD, List.length_cons, List.length_nil]
  norm_num [h3, h4]

/-- The ids after running a creation sequence are the starting ids
followed by the creation timestamps, in order. -/
theorem runCreations_map_id (ops : List CreationOp)
    (init : List DrawingElement) :
    (runCreations init ops).map (fun e => e.id) =
      init.map (fun e => e.id) ++ ops.map CreationOp.time := by
  induction ops generalizing init with
  | nil => simp [runCreations]
  | cons op rest ih =>
    have hstep : (applyCreation init op).map (fun e => e.id) =
        init.map (fun e => e.id) ++ [op.time] := by
      cases op <;> simp [applyCreation, mkShapeElement, mkTextElement,
        CreationOp.time]
    calc (runCreations init (op :: rest)).map (fun e => e.id)
        = (runCreations (applyCreation init op) rest).map (fun e => e.id) := rfl
      _ = (applyCreation init op).map (fun e => e.id) ++
            rest.map CreationOp.time := ih _
      _ = init.map (fun e => e.id) ++ (op :: rest).map CreationOp.time := by
          rw [hstep]; simp

/-- Claim C6 counterexample: the element id is the raw `Date.now()`
creation timestamp, so two elements created in the same millisecond get
the same id — after two creations with timestamp 5, the set holds two
elements with id 5, refuting "every persisted element's id is unique
within the annotation set" for every creation sequence. -/
theorem claim_C6_duplicate_timestamp_ids :
    ¬ ((runCreations []
        [ CreationOp.shape 5 .rectangle [⟨0, 0⟩, ⟨1, 1⟩]
            [ '#', 'f', 'f', '0', '0', '0', '0' ] 2,
          CreationOp.shape 5 .circle [⟨2, 2⟩, ⟨3, 3⟩]
            [ '#', 'f', 'f', '0', '0', '0', '0' ] 2 ]).map
        (fun e => e.id)).Nodup := by
  decide

/-- Claim C6 amended: across every sequence of element creations whose
`Date.now()` creation timestamps are pairwise distinct, every persisted
element's id is unique within the annotation set. -/
theorem claim_C6_ids_unique_of_distinct_times (ops : List CreationOp)
    (h : (ops.map CreationOp.time).Nodup) :
    ((runCreations [] ops).map (fun e => e.id)).Nodup := by
  rw [runCreations_map_id]
  simpa using h

/-- Witness for the amended claim C6: two creations at timestamps 1, 2. -/
theorem claim_C6_ids_unique_witness :
    (([ CreationOp.shape 1 .rectangle [⟨0, 0⟩, ⟨1, 1⟩]
          [ '#', 'f', 'f', '0', '0', '0', '0' ] 2,
        CreationOp.text 2 ⟨5, 5⟩
          [ '#', 'f', 'f', '0', '0', '0', '0' ] 2 16 ]).map
        CreationOp.time).Nodup ∧
    ((runCreations []
        [ CreationOp.shape 1 .rectangle [⟨0, 0⟩, ⟨1, 1⟩]
            [ '#', 'f', 'f', '0', '0', '0', '0' ] 2,
          CreationOp.text 2 ⟨5, 5⟩
            [ '#', 'f', 'f', '0', '0', '0', '0' ] 2 16 ]).map
        (fun e => e.id)).Nodup :=
  ⟨by decide, claim_C6_ids_unique_of_distinct_times _ (by decide)⟩

/-- Claim C8: confirming a text edit whose trimmed content is empty
behaves as cancel: when exactly one element of the set carries the
confirmed id, the set shrinks by exactly one element and that id is
absent afterwards. -/
theorem claim_C8_empty_confirm_discards (elements : List DrawingElement)
    (id : Nat) (text : List Char) (format : TextFormat) (O : Point)
    (hws : jsTrim text = [])
    (hone : elements.countP (fun el => el.id = id) = 1) :
    (editorConfirm elements id text format O).length = elements.length - 1 ∧
    ∀ el ∈ editorConfirm elements id text format O, el.id ≠ id := by
  have hcancel : editorConfirm elements id text format O =
      elements.filter (fun el => el.id ≠ id) := by
    simp [editorConfirm, hws, handleTextCancel]
  rw [hcancel]
  clear hcancel
  constructor
  · induction elements with
    | nil => simp at hone
    | cons a l ih =>
      by_cases ha : a.id = id
      · have h1 : l.countP (fun el => el.id = id) + 1 = 1 := by
          rw [List.countP_cons] at hone
          simpa [ha] using hone
        have hl0 : l.countP (fun el => el.id = id) = 0 := by omega
        have hkeep : l.filter (fun el => el.id ≠ id) = l := by
          rw [List.filter_eq_self]
          intro x hx
          have hx0 := List.countP_eq_zero.mp hl0 x hx
          simpa using hx0
        rw [List.filter_cons_of_neg (by simpa using ha), hkeep]
        simp
      · have hone' : l.countP (fun el => el.id = id) = 1 := by
          rw [List.countP_cons] at hone
          simpa [ha] using hone
        have hcl : l.countP (fun el => el.id = id) ≤ l.length :=
          List.countP_le_length _
        have hrec := ih hone'
        rw [List.filter_cons_of_pos (by simpa using ha)]
        simp only [List.length_cons]
        omega
  · intro el hel
    have hmem := List.mem_filter.mp hel
    simpa using hmem.2

/-- Witness for claim C8: a one-element set, confirm with a whitespace-only
text. -/
theorem claim_C8_empty_confirm_witness :
    jsTrim [ ' ', ' ' ] = [] ∧
    ([ mkTextElement 7 ⟨10, 10⟩ [ '#', 'f', 'f', '0', '0', '0', '0' ] 2
        16 ].countP (fun el => el.id = 7) = 1) ∧
    ((editorConfirm
        [ mkTextElement 7 ⟨10, 10⟩ [ '#', 'f', 'f', '0', '0', '0', '0' ] 2
            16 ] 7 [ ' ', ' ' ]
        { fontFamily := [ 'A' ], fontSize := 16, isBold := false,
          isItalic := false, isUnderline := false, color := [ 'k' ] }
        ⟨0, 0⟩).length =
      [ mkTextElement 7 ⟨10, 10⟩ [ '#', 'f', 'f', '0', '0', '0', '0' ] 2
          16 ].length - 1) :=
  ⟨by decide, by decide,
    (claim_C8_empty_confirm_discards _ 7 _ _ _ (by decide) (by decide)).1⟩

/-- The malformed elements of claim C9: a points list too short for the
element's kind (fewer than 2 points for `rectangle`, `circle`, `arrow`,
`highlight` or `draw`), or a `text` element with missing or empty text or
empty points. -/
def malformedForExport (e : DrawingElement) : Bool :=
  (match e.type with
   | .rectangle | .circle | .arrow | .highlight | .draw =>
      decide (e.points.length < 2)
   | _ => false) ||
  (e.type == .text &&
    (e.points.isEmpty ||
      (match e.text with | none => true | some t => t.isEmpty)))

/-- Claim C9: the per-element export draw step is total over malformed
elements — every malformed element (in the sense of
`malformedForExport`) contributes no draw command and raises no error
(the embedded draw step is a total function into command lists), and the
export of the remaining elements produces the same command stream. -/
theorem claim_C9_malformed_element_draws_nothing (e : DrawingElement)
    (s h : ℝ) (hm : malformedForExport e = true) :
    drawElementOnPDF e s h = [] ∧
    ∀ (pre post : List DrawingElement),
      mergeAnnotationCommands (pre ++ e :: post) s h =
        mergeAnnotationCommands (pre ++ post) s h := by
  have hdraw : drawElementOnPDF e s h = [] := by
    cases htype : e.type with
    | text =>
      simp only [malformedForExport, htype] at hm
      cases htext : e.text with
      | none => simp [drawElementOnPDF, htype, htext]
      | some t =>
        rw [htext] at hm
        simp only [drawElementOnPDF, htype, htext]
        have hguard : (!t.isEmpty && !e.points.isEmpty) = false := by
          simp only [Bool.or_eq_true, Bool.and_eq_true, beq_self_eq_true,
            true_and, decide_eq_true_eq] at hm
          rcases hm with hm | hm | hm
          · cases hm
          · simp [hm]
          · simp [hm]
        rw [hguard]
        simp
    | rectangle =>
      simp [malformedForExport, htype] at hm
      simp only [drawElementOnPDF, htype]
      rw [if_neg (by omega)]
    | circle =>
      simp [malformedForExport, htype] at hm
      simp only [drawElementOnPDF, htype]
      rw [if_neg (by omega)]
    | arrow =>
      simp [malformedForExport, htype] at hm
      simp only [drawElementOnPDF, htype]
      rw [if_neg (by omega)]
    | highlight =>
      simp [malformedForExport, htype] at hm
      simp only [drawElementOnPDF, htype]
      rw [if_neg (by omega)]
    | draw =>
      simp [malformedForExport, htype] at hm
      simp only [drawElementOnPDF, htype]
      rw [if_neg (by omega)]
    | select => simp [malformedForExport, htype] at hm
    | eraser => simp [malformedForExport, htype] at hm
  refine ⟨hdraw, fun pre post => ?_⟩
  simp [mergeAnnotationCommands, hdraw]

/-- Witness for claim C9: a rectangle with a single point contributes no
draw command, and exporting it together with a well-formed text element
yields the same commands as exporting the text element alone. -/
theorem claim_C9_malformed_witness :
    malformedForExport
      { id := 9, type := .rectangle, points := [⟨1, 1⟩],
        color := [ '#', '0', '0', 'f', 'f', '0', '0' ], strokeWidth := 2 }
      = true ∧
    drawElementOnPDF
      { id := 9, type := .rectangle, points := [⟨1, 1⟩],
        color := [ '#', '0', '0', 'f', 'f', '0', '0' ], strokeWidth := 2 }
      2 100 = [] :=
  ⟨by decide,
    (claim_C9_malformed_element_draws_nothing _ 2 100 (by decide)).1⟩

/-- Facts about a character accepted by `hexDigitVal`: its value is at
most 15 and it is not whitespace, a sign, an `x`/`X`, or a `#`. -/
theorem hexDigitVal_char_facts (c : Char) (v : Nat)
    (h : hexDigitVal c = some v) :
    v ≤ 15 ∧ Char.isWhitespace c = false ∧ c ≠ '-' ∧ c ≠ '+' ∧
      c ≠ 'x' ∧ c ≠ 'X' := by
  unfold hexDigitVal at h
  cases hfind : hexDigits.find? (fun p => p.1 = c) with
  | none => rw [hfind] at h; cases h
  | some p =>
    rw [hfind] at h
    have hp := List.find?_some hfind
    have hmem := List.mem_of_find?_eq_some hfind
    simp only [Option.map_some'] at h
    cases h
    have hc : p.1 = c := by simpa using hp
    subst hc
    fin_cases hmem <;> decide

/-- A two-hex-digit slice parses to its hexadecimal value. -/
theorem jsParseIntHex_two_digits (d1 d2 : Char) (v1 v2 : Nat)
    (h1 : hexDigitVal d1 = some v1) (h2 : hexDigitVal d2 = some v2) :
    jsParseIntHex [ d1, d2 ] = some ((16 * v1 + v2 : Nat) : ℚ) := by
  obtain ⟨-, hw1, hm1, hp1, hx1, hX1⟩ := hexDigitVal_char_facts d1 v1 h1
  obtain ⟨-, hw2, hm2, hp2, hx2, hX2⟩ := hexDigitVal_char_facts d2 v2 h2
  have hhex1 : isHexDigitChar d1 = true := by
    simp [isHexDigitChar, h1]
  have hhex2 : isHexDigitChar d2 = true := by
    simp [isHexDigitChar, h2]
  have hdrop : List.dropWhile Char.isWhitespace [ d1, d2 ] = [ d1, d2 ] := by
    rw [List.dropWhile_cons_of_neg (by simp [hw1])]
  have hstrip : stripHex0x [ d1, d2 ] = [ d1, d2 ] := by
    unfold stripHex0x
    split <;> simp_all
  have htake : List.takeWhile isHexDigitChar [ d1, d2 ] = [ d1, d2 ] := by
    rw [List.takeWhile_cons_of_pos hhex1, List.takeWhile_cons_of_pos hhex2,
      List.takeWhile_nil]
  have hval : hexDigitsVal [ d1, d2 ] = 16 * v1 + v2 := by
    simp [hexDigitsVal, h1, h2]
  simp only [jsParseIntHex]
  rw [hdrop, List.head?_cons]
  rw [if_neg (show ¬(some d1 = some '-' ∨ some d1 = some '+') by
    simp [hm1, hp1])]
  rw [hstrip, htake]
  rw [if_neg (show ¬([ d1, d2 ] = ([] : List Char)) by simp)]
  rw [if_neg (show ¬(some d1 = some '-') by simp [hm1])]
  rw [hval]

/-- Each parsed channel of a 6-hex-digit color lies in `[0, 1]`. -/
theorem channel_bounds (v1 v2 : Nat) (hv1 : v1 ≤ 15) (hv2 : v2 ≤ 15) :
    0 ≤ ((16 * v1 + v2 : Nat) : ℚ) / 255 ∧
      ((16 * v1 + v2 : Nat) : ℚ) / 255 ≤ 1 := by
  constructor
  · positivity
  · rw [div_le_one (by norm_num)]
    have hb : (16 * v1 + v2 : Nat) ≤ 255 := by omega
    exact_mod_cast hb

/-- Claim C7 counterexample: the claim says every string that is not a
6-hex-digit `#RRGGBB` — including `#`-prefixed strings of other shapes —
gets the fallback `{r: 1, g: 0, b: 0}`.  On the 3-digit CSS color `#fff`
the code instead hex-decodes the slices: it returns
`{r: 1, g: 15/255, b: NaN}`, not the fallback. -/
theorem claim_C7_hash_fff_not_fallback :
    parseColor [ '#', 'f', 'f', 'f' ] ≠
      { r := some 1, g := some 0, b := some 0 } ∧
    parseColor [ '#', 'f', 'f', 'f' ] =
      { r := some 1, g := some (15 / 255), b := none } := by
  have hval : parseColor [ '#', 'f', 'f', 'f' ] =
      { r := some ((255 : ℚ) / 255), g := some ((15 : ℚ) / 255),
        b := none } := rfl
  rw [hval]
  constructor
  · simp
  · simp only [RGBv.mk.injEq]
    norm_num

/-- Claim C7 amended: the fallback `{r: 1, g: 0, b: 0}` is substituted
exactly for the strings that do not start with `#`; a `#`-prefixed string
is always hex-decoded two characters per channel (yielding `NaN` — `none`
— channels when the slices are not hex digits), and on a 6-hex-digit
`#RRGGBB` string this yields the three channel fractions, each in
`[0, 1]`. -/
theorem claim_C7_parse_color_amended (d1 d2 d3 d4 d5 d6 : Char)
    (v1 v2 v3 v4 v5 v6 : Nat)
    (h1 : hexDigitVal d1 = some v1) (h2 : hexDigitVal d2 = some v2)
    (h3 : hexDigitVal d3 = some v3) (h4 : hexDigitVal d4 = some v4)
    (h5 : hexDigitVal d5 = some v5) (h6 : hexDigitVal d6 = some v6)
    (l : List Char) (hl : l.head? ≠ some '#') :
    parseColor [ '#', d1, d2, d3, d4, d5, d6 ] =
      { r := some (((16 * v1 + v2 : Nat) : ℚ) / 255),
        g := some (((16 * v3 + v4 : Nat) : ℚ) / 255),
        b := some (((16 * v5 + v6 : Nat) : ℚ) / 255) } ∧
    (0 ≤ ((16 * v1 + v2 : Nat) : ℚ) / 255 ∧
      ((16 * v1 + v2 : Nat) : ℚ) / 255 ≤ 1) ∧
    (0 ≤ ((16 * v3 + v4 : Nat) : ℚ) / 255 ∧
      ((16 * v3 + v4 : Nat) : ℚ) / 255 ≤ 1) ∧
    (0 ≤ ((16 * v5 + v6 : Nat) : ℚ) / 255 ∧
      ((16 * v5 + v6 : Nat) : ℚ) / 255 ≤ 1) ∧
    parseColor l = { r := some 1, g := some 0, b := some 0 } := by
  obtain ⟨hb1, -⟩ := hexDigitVal_char_facts d1 v1 h1
  obtain ⟨hb2, -⟩ := hexDigitVal_char_facts d2 v2 h2
  obtain ⟨hb3, -⟩ := hexDigitVal_char_facts d3 v3 h3
  obtain ⟨hb4, -⟩ := hexDigitVal_char_facts d4 v4 h4
  obtain ⟨hb5, -⟩ := hexDigitVal_char_facts d5 v5 h5
  obtain ⟨hb6, -⟩ := hexDigitVal_char_facts d6 v6 h6
  refine ⟨?_, channel_bounds v1 v2 hb1 hb2, channel_bounds v3 v4 hb3 hb4,
    channel_bounds v5 v6 hb5 hb6, ?_⟩
  · have hr := jsParseIntHex_two_digits d1 d2 v1 v2 h1 h2
    have hg := jsParseIntHex_two_digits d3 d4 v3 v4 h3 h4
    have hb := jsParseIntHex_two_digits d5 d6 v5 v6 h5 h6
    simp only [parseColor]
    rw [if_pos (show ([ '#', d1, d2, d3, d4, d5, d6 ] : List Char).head?
      = some '#' from rfl)]
    have e1 : (([ '#', d1, d2, d3, d4, d5, d6 ] : List Char).drop 1).take 2
        = [ d1, d2 ] := rfl
    have e2 : ((([ '#', d1, d2, d3, d4, d5, d6 ] : List Char).drop 1).drop 2).take 2
        = [ d3, d4 ] := rfl
    have e3 : ((([ '#', d1, d2, d3, d4, d5, d6 ] : List Char).drop 1).drop 4).take 2
        = [ d5, d6 ] := rfl
    rw [e1, e2, e3, hr, hg, hb]
    rfl
  · simp [parseColor, hl]

/-- Witness for the amended claim C7 at `#ff0000` and the non-`#` string
`red`. -/
theorem claim_C7_parse_color_witness :
    hexDigitVal 'f' = some 15 ∧ hexDigitVal '0' = some 0 ∧
    ([ 'r', 'e', 'd' ] : List Char).head? ≠ some '#' ∧
    parseColor [ '#', 'f', 'f', '0', '0', '0', '0' ] =
      { r := some (((16 * 15 + 15 : Nat) : ℚ) / 255),
        g := some (((16 * 0 + 0 : Nat) : ℚ) / 255),
        b := some (((16 * 0 + 0 : Nat) : ℚ) / 255) } ∧
    parseColor [ 'r', 'e', 'd' ] = { r := some 1, g := some 0, b := some 0 } := by
  have h := claim_C7_parse_color_amended 'f' 'f' '0' '0' '0' '0'
    15 15 0 0 0 0 (by decide) (by decide) (by decide) (by decide)
    (by decide) (by decide) [ 'r', 'e', 'd' ] (by decide)
  exact ⟨by decide, by decide, by decide, h.1, h.2.2.2.2⟩

end PdfEditor
